import Mathlib

/-
Verification of the websockettransceiver GStreamer element
(src/gstwebsockettransceiver.c) against its natural-language specification.

The element's state machines are shallowly embedded: the receive queue is a
Lean list (head = oldest), the output pacer's steady-state loop is a pure
step function on an explicit state record that also accumulates the trace of
events pushed on the source pad, and the WebSocket worker's reconnect loop is
a fuel-bounded recursion. Machine integers (guint, GstClockTime) are modelled
as Nat; the configuration ranges enforced by the GObject param specs appear
as hypotheses where relevant.
-/

namespace GstWsT

/-- Events observable on the source pad, in push order. A `buffer` event
records the pts and duration stamped on the pushed audio buffer. -/
inductive SrcEv where
  | streamStart
  | capsEv
  | segment
  | flushStart
  | flushStop
  | eos
  | buffer (payload pts dur : Nat)
  | otherEv
  deriving DecidableEq, Repr

/-! ## Receive queue (on_websocket_message, lines 545-561)

The C code runs, under the queue mutex:
while length of recv_queue is at least max_queue_size, pop and unref the head;
then push the new buffer at the tail. -/

/-- Drop-oldest loop of `on_websocket_message`: while the queue length is at
least `cap`, pop the head. -/
def dropOldest (cap : Nat) : List α → List α
  | [] => []
  | f :: rest =>
    if cap ≤ (f :: rest).length then dropOldest cap rest else f :: rest

/-- Enqueue of a received binary frame: drop-oldest until below capacity,
then append at the tail (g_queue_push_tail). -/
def queuePush (cap : Nat) (q : List α) (f : α) : List α :=
  dropOldest cap q ++ [f]

/-! ## Output pacer state (gst_websocket_transceiver_output_thread and
gst_websocket_transceiver_flush_queue) -/

/-- State touched by the output pacer's steady-state loop (lines 801-886)
and by the flush path (lines 470-495). `events` is the trace of events
pushed on the source pad so far; `stopped` records that the loop has
executed `break`. Frames are opaque payload identifiers. -/
structure PacerState where
  recvQueue : List Nat
  frameDuration : Nat
  baseTimestamp : Nat
  nextTimestamp : Nat
  nextOutputTime : Nat
  firstTimestampSet : Bool
  needSegment : Bool
  segmentPushed : Bool
  capsPushed : Bool
  connected : Bool
  eosSent : Bool
  stopped : Bool
  events : List SrcEv
  deriving DecidableEq, Repr

/-- Step 1 of gst_websocket_transceiver_flush_queue (lines 475-480):
drain and release every queued frame. -/
def flushDrain (s : PacerState) : PacerState :=
  { s with recvQueue := [] }

/-- Step 2 of gst_websocket_transceiver_flush_queue (lines 482-485):
reset next_timestamp and clear first_timestamp_set. -/
def flushResetTs (s : PacerState) : PacerState :=
  { s with nextTimestamp := 0, firstTimestampSet := false }

/-- Step 3 of gst_websocket_transceiver_flush_queue (lines 487-488):
push flush-start, then flush-stop, on the source pad. -/
def flushPushEvents (s : PacerState) : PacerState :=
  { s with events := s.events ++ [SrcEv.flushStart, SrcEv.flushStop] }

/-- Step 4 of gst_websocket_transceiver_flush_queue (lines 490-492):
request a re-emitted segment before the next buffer. -/
def flushMarkSegment (s : PacerState) : PacerState :=
  { s with needSegment := true }

/-- gst_websocket_transceiver_flush_queue (lines 470-495), as the ordered
composition of its four steps. -/
def flush_queue (s : PacerState) : PacerState :=
  flushMarkSegment (flushPushEvents (flushResetTs (flushDrain s)))

/-- One iteration of the output pacer's steady-state loop, lines 801-886:
consume need_segment; push a segment if needed; exit if eos_sent; wait for
the output deadline (a real-time effect with no state change); pop a frame;
if none, either send EOS and exit (disconnected) or advance the timestamp
schedule; if one was popped, stamp pts and duration, push it, and advance.
The downstream push result is taken to be GST_FLOW_OK. -/
def output_thread_iter (s : PacerState) : PacerState :=
  if s.stopped then s
  else
    let forceSegment := s.needSegment
    let s1 := { s with needSegment := false }
    let s2 :=
      if (!s1.segmentPushed || forceSegment) && s1.capsPushed then
        { s1 with events := s1.events ++ [SrcEv.segment], segmentPushed := true }
      else s1
    if s2.eosSent then { s2 with stopped := true }
    else
      match s2.recvQueue with
      | [] =>
        if !s2.connected && !s2.eosSent then
          { s2 with eosSent := true, stopped := true,
                    events := s2.events ++ [SrcEv.eos] }
        else
          { s2 with nextTimestamp := s2.nextTimestamp + s2.frameDuration,
                    nextOutputTime := s2.nextOutputTime + s2.frameDuration }
      | f :: rest =>
        { s2 with recvQueue := rest,
                  events := s2.events ++
                    [SrcEv.buffer f (s2.baseTimestamp + s2.nextTimestamp) s2.frameDuration],
                  nextTimestamp := s2.nextTimestamp + s2.frameDuration,
                  nextOutputTime := s2.nextOutputTime + s2.frameDuration }

/-- Run `n` iterations of the pacer loop. -/
def output_thread_run : Nat → PacerState → PacerState
  | 0, s => s
  | n + 1, s => output_thread_run n (output_thread_iter s)

/-- The buffer events emitted while draining the frame list `l`, starting at
timestamp offset `ts` from base `base`, one frame every `fd`. -/
def drainEvents (base ts fd : Nat) : List Nat → List SrcEv
  | [] => []
  | f :: rest => SrcEv.buffer f (base + ts) fd :: drainEvents base (ts + fd) fd rest

/-! ## State change: NULL to READY (change_state, lines 936-963) -/

/-- Element state touched by the NULL-to-READY transition. -/
structure ElemState where
  uri : Option String
  reconnectCount : Nat
  currentBackoffMs : Nat
  wsThreadRunning : Bool
  wsThreadStarted : Bool
  deriving DecidableEq, Repr

/-- GstStateChangeReturn values relevant to the element. -/
inductive StateChangeRet where
  | success
  | failure
  | noPreroll
  deriving DecidableEq, Repr

/-- NULL-to-READY branch of gst_websocket_transceiver_change_state
(lines 936-963): reset reconnect counters, fail if no uri is set, start the
WebSocket worker thread, then wait up to 5 seconds for the connect
condition. `within5s` records whether the connection was signalled within
the wait; the wait only logs, so it cannot fail the transition. -/
def change_state_null_to_ready (s : ElemState) (_within5s : Bool) :
    StateChangeRet × ElemState :=
  let s0 := { s with reconnectCount := 0, currentBackoffMs := 0 }
  match s0.uri with
  | none => (StateChangeRet.failure, s0)
  | some _ =>
    (StateChangeRet.success, { s0 with wsThreadRunning := true, wsThreadStarted := true })

/-! ## Sink chain (gst_websocket_transceiver_chain, lines 895-927) -/

/-- GstFlowReturn values relevant to the element. -/
inductive FlowRet where
  | ok
  | flushing
  | eosRet
  | errorRet
  deriving DecidableEq, Repr

/-- Connection state read by the chain function under the state lock. -/
structure ChainState where
  connected : Bool
  wsConn : Option Nat
  deriving DecidableEq, Repr

/-- gst_websocket_transceiver_chain (lines 895-927): if not connected or no
connection handle, unref the buffer and return GST_FLOW_OK; otherwise send
the mapped bytes as one binary frame and return GST_FLOW_OK. The second
component is the binary frame handed to the transport, if any. -/
def chain (s : ChainState) (buffer : List Nat) : FlowRet × Option (List Nat) :=
  if !s.connected || s.wsConn.isNone then (FlowRet.ok, none)
  else (FlowRet.ok, some buffer)

/-! ## Sink events (gst_websocket_transceiver_sink_event, lines 439-468) -/

/-- Kinds of sink-pad events distinguished by the handler. -/
inductive SinkEvKind where
  | capsEv
  | eosEv
  | otherEv
  deriving DecidableEq, Repr

/-- gst_websocket_transceiver_sink_event (lines 439-468): a caps event runs
setcaps, whose success is `capsResult` and which mirrors the caps onto the
source pad on success; an EOS event is unreffed and absorbed with ret TRUE
(lines 454-461); any other event is forwarded by gst_pad_event_default.
The second component is the list of events this handler causes on the
source pad. -/
def sink_event (capsResult : Bool) : SinkEvKind → Bool × List SrcEv
  | SinkEvKind.capsEv =>
    (capsResult, if capsResult then [SrcEv.capsEv] else [])
  | SinkEvKind.eosEv => (true, [])
  | SinkEvKind.otherEv => (true, [SrcEv.otherEv])

/-! ## WebSocket worker and reconnect backoff (ws_thread, lines 642-713) -/

/-- One backoff update from lines 698-701 of ws_thread:
if current_backoff_ms is positive, double it and clamp at max_backoff_ms;
otherwise use initial_reconnect_delay_ms. -/
def backoffStep (initialDelay maxBackoff cur : Nat) : Nat :=
  if 0 < cur then min (cur * 2) maxBackoff else initialDelay

/-- Backoff used before retry number `n` (n counted from 1; index 0 is the
initial current_backoff_ms = 0 set at NULL-to-READY). -/
def backoffSeq (initialDelay maxBackoff : Nat) : Nat → Nat
  | 0 => 0
  | n + 1 => backoffStep initialDelay maxBackoff (backoffSeq initialDelay maxBackoff n)

/-- Modelled from the spec: the claimed backoff update
current_backoff_ms = max(initial_reconnect_delay_ms,
min(current_backoff_ms times 2, max_backoff_ms)). Stated only for
comparison with the source's `backoffStep`. -/
def backoffStepSpec (initialDelay maxBackoff cur : Nat) : Nat :=
  max initialDelay (min (cur * 2) maxBackoff)

/-- Modelled from the spec: the claimed backoff sequence, iterating
`backoffStepSpec` from current_backoff_ms = 0. -/
def backoffSeqSpec (initialDelay maxBackoff : Nat) : Nat → Nat
  | 0 => 0
  | n + 1 => backoffStepSpec initialDelay maxBackoff (backoffSeqSpec initialDelay maxBackoff n)

/-- State read by the ws_thread connect loop. -/
structure WsState where
  wsThreadRunning : Bool
  reconnectEnabled : Bool
  maxReconnects : Nat
  reconnectCount : Nat
  initialReconnectDelayMs : Nat
  maxBackoffMs : Nat
  currentBackoffMs : Nat
  deriving DecidableEq, Repr

/-- The connect-loop condition of ws_thread, line 652: the loop body runs
only while the thread is running, reconnect is enabled, and the attempt
count is below max_reconnects (0 meaning unlimited). -/
def wsLoopCond (s : WsState) : Bool :=
  s.wsThreadRunning && s.reconnectEnabled &&
    (s.maxReconnects == 0 || decide (s.reconnectCount < s.maxReconnects))

/-- Number of handshake attempts initiated by the ws_thread connect loop
(lines 652-705) when every attempt fails and the element keeps running:
each loop-body execution initiates exactly one asynchronous handshake, then
increments reconnect_count and applies the backoff update. `fuel` bounds
the number of iterations examined. -/
def wsAttempts (fuel : Nat) (s : WsState) : Nat :=
  match fuel with
  | 0 => 0
  | fuel + 1 =>
    if wsLoopCond s then
      1 + wsAttempts fuel
        { s with reconnectCount := s.reconnectCount + 1,
                 currentBackoffMs :=
                   backoffStep s.initialReconnectDelayMs s.maxBackoffMs s.currentBackoffMs }
    else 0

/-! ## Caps negotiation (gst_websocket_transceiver_sink_setcaps, lines
377-437) -/

/-- GST_MSECOND in nanoseconds. -/
def GST_MSECOND : Nat := 1000000

/-- Audio configuration fields touched by setcaps. -/
structure AudioCfg where
  sample_rate : Nat
  channels : Nat
  bytes_per_sample : Nat
  frame_duration_ms : Nat
  frame_size_bytes : Nat
  frame_duration : Nat
  caps_ready : Bool
  deriving DecidableEq, Repr

/-- The caps presented on the sink pad, as read by setcaps: the structure
name, the rate and channels fields (absent when gst_structure_get_int
fails), and the bytes-per-frame value when gst_audio_info_from_caps can
parse the caps (`none` when parsing fails). -/
structure InCaps where
  name : String
  rate : Option Nat
  channels : Option Nat
  rawBpf : Option Nat
  deriving DecidableEq, Repr

/-- gst_websocket_transceiver_sink_setcaps (lines 377-437): fail if rate or
channels is missing; store rate and channels; derive bytes_per_sample from
the format name (raw audio parsed: BPF divided by channels; raw audio
unparsable: 2 with a warning; mulaw or alaw: 1; unknown: 1 with a warning);
recompute frame_size_bytes and frame_duration; mirror the caps onto the
source pad, whose success is `srcCapsOk`, failing if that fails; finally
set caps_ready. The first component is the returned gboolean; the second
is the element configuration after the call (field writes persist even on
a failed return, as in the C code). -/
def sink_setcaps (c : AudioCfg) (caps : InCaps) (srcCapsOk : Bool) :
    Bool × AudioCfg :=
  match caps.rate, caps.channels with
  | some rate, some channels =>
    let c1 := { c with sample_rate := rate, channels := channels }
    let bps :=
      if caps.name = "audio/x-raw" then
        match caps.rawBpf with
        | some bpf => bpf / c1.channels
        | none => 2
      else if caps.name = "audio/x-mulaw" ∨ caps.name = "audio/x-alaw" then 1
      else 1
    let c2 := { c1 with bytes_per_sample := bps }
    let c3 := { c2 with
      frame_size_bytes :=
        c2.sample_rate * c2.bytes_per_sample * c2.channels * c2.frame_duration_ms / 1000,
      frame_duration := c2.frame_duration_ms * GST_MSECOND }
    if srcCapsOk then (true, { c3 with caps_ready := true }) else (false, c3)
  | _, _ => (false, c)

/-- The events appended to the source-pad trace by one pacer iteration. -/
def emitted (s : PacerState) : List SrcEv :=
  (output_thread_iter s).events.drop s.events.length

/-- Number of end-of-stream events in a trace, plus the one still allowed
when the eos_sent latch is clear. This quantity never increases across a
pacer iteration. -/
def eosBudget (s : PacerState) : Nat :=
  s.events.count SrcEv.eos + (if s.eosSent then 0 else 1)

/-- The ws_thread state at the input on which claim C9 fails: uri is set,
the worker was just started (ws_thread_running true, counters reset by the
NULL-to-READY transition), reconnect-enabled is false, and every other
property has its default value. -/
def wsDisabledInput : WsState :=
  { wsThreadRunning := true,
    reconnectEnabled := false,
    maxReconnects := 10,
    reconnectCount := 0,
    initialReconnectDelayMs := 1000,
    maxBackoffMs := 30000,
    currentBackoffMs := 0 }

/-- The same ws_thread start state with reconnect-enabled left at its
default of true, for contrast. -/
def wsEnabledInput : WsState :=
  { wsDisabledInput with reconnectEnabled := true }

/-- A concrete steady-state pacer state used to witness the barge-in
claim: connected, caps and segment already pushed, two frames queued. -/
def pacerFlushState : PacerState :=
  { recvQueue := [3, 4],
    frameDuration := 20,
    baseTimestamp := 1000,
    nextTimestamp := 60,
    nextOutputTime := 1080,
    firstTimestampSet := true,
    needSegment := false,
    segmentPushed := true,
    capsPushed := true,
    connected := true,
    eosSent := false,
    stopped := false,
    events := [SrcEv.streamStart] }

/-- A concrete pacer state just after a remote disconnect: two frames
still queued, connected false, EOS not yet sent. -/
def pacerDiscState : PacerState :=
  { recvQueue := [5, 6],
    frameDuration := 20,
    baseTimestamp := 1000,
    nextTimestamp := 0,
    nextOutputTime := 1020,
    firstTimestampSet := true,
    needSegment := false,
    segmentPushed := true,
    capsPushed := true,
    connected := false,
    eosSent := false,
    stopped := false,
    events := [] }

/-- A concrete connected pacer state with an empty queue, on the
timestamp grid at k = 2, used to witness the timestamp-schedule claim. -/
def pacerGapState : PacerState :=
  { recvQueue := [],
    frameDuration := 20,
    baseTimestamp := 1000,
    nextTimestamp := 40,
    nextOutputTime := 1060,
    firstTimestampSet := true,
    needSegment := false,
    segmentPushed := true,
    capsPushed := true,
    connected := true,
    eosSent := false,
    stopped := false,
    events := [] }

/-! ## Helper lemmas about the pacer loop -/

theorem dropOldest_length_lt (cap : Nat) (hcap : 1 ≤ cap) :
    ∀ q : List α, (dropOldest cap q).length < cap := by
  intro q
  induction q with
  | nil => simpa [dropOldest] using hcap
  | cons f rest ih =>
    rw [dropOldest]
    split
    · exact ih
    · next hlen =>
      simp only [List.length_cons] at hlen ⊢
      omega

theorem iter_stopped_eq (s : PacerState) (h : s.stopped = true) :
    output_thread_iter s = s := by
  simp [output_thread_iter, h]

theorem iter_buffer_eq (s : PacerState) (f : Nat) (rest : List Nat)
    (h1 : s.stopped = false) (h2 : s.eosSent = false) (h3 : s.recvQueue = f :: rest)
    (h4 : s.needSegment = false) (h5 : s.segmentPushed = true) :
    output_thread_iter s =
      { s with needSegment := false, recvQueue := rest,
               events := s.events ++
                 [SrcEv.buffer f (s.baseTimestamp + s.nextTimestamp) s.frameDuration],
               nextTimestamp := s.nextTimestamp + s.frameDuration,
               nextOutputTime := s.nextOutputTime + s.frameDuration } := by
  simp [output_thread_iter, h1, h2, h3, h4, h5]

theorem iter_seg_buffer_eq (s : PacerState) (f : Nat) (rest : List Nat)
    (h1 : s.stopped = false) (h2 : s.eosSent = false) (h3 : s.recvQueue = f :: rest)
    (h4 : s.needSegment = true) (h5 : s.capsPushed = true) :
    output_thread_iter s =
      { s with needSegment := false, segmentPushed := true, recvQueue := rest,
               events := s.events ++
                 [SrcEv.segment,
                  SrcEv.buffer f (s.baseTimestamp + s.nextTimestamp) s.frameDuration],
               nextTimestamp := s.nextTimestamp + s.frameDuration,
               nextOutputTime := s.nextOutputTime + s.frameDuration } := by
  simp [output_thread_iter, h1, h2, h3, h4, h5]

theorem iter_empty_adv_eq (s : PacerState)
    (h1 : s.stopped = false) (h2 : s.eosSent = false) (h3 : s.recvQueue = [])
    (h4 : s.needSegment = false) (h5 : s.segmentPushed = true)
    (h6 : s.connected = true) :
    output_thread_iter s =
      { s with needSegment := false,
               nextTimestamp := s.nextTimestamp + s.frameDuration,
               nextOutputTime := s.nextOutputTime + s.frameDuration } := by
  simp [output_thread_iter, h1, h2, h3, h4, h5, h6]

theorem iter_empty_eos_eq (s : PacerState)
    (h1 : s.stopped = false) (h2 : s.eosSent = false) (h3 : s.recvQueue = [])
    (h4 : s.needSegment = false) (h5 : s.segmentPushed = true)
    (h6 : s.connected = false) :
    output_thread_iter s =
      { s with needSegment := false, eosSent := true, stopped := true,
               events := s.events ++ [SrcEv.eos] } := by
  simp [output_thread_iter, h1, h2, h3, h4, h5, h6]

theorem iter_events_append (s : PacerState) :
    (output_thread_iter s).events = s.events ++ emitted s := by
  unfold emitted output_thread_iter
  rcases hq : s.recvQueue with _ | ⟨f, rest⟩ <;>
    cases hstop : s.stopped <;> cases heos : s.eosSent <;> cases hconn : s.connected <;>
    cases hneed : s.needSegment <;> cases hseg : s.segmentPushed <;>
    cases hcaps : s.capsPushed <;>
    simp_all [List.drop_left, List.drop_length, List.append_assoc]

theorem eos_emitted_cond (s : PacerState) (h : SrcEv.eos ∈ emitted s) :
    s.recvQueue = [] ∧ s.connected = false ∧ s.eosSent = false ∧
      (output_thread_iter s).eosSent = true := by
  unfold emitted output_thread_iter at h
  unfold output_thread_iter
  rcases hq : s.recvQueue with _ | ⟨f, rest⟩ <;>
    cases hstop : s.stopped <;> cases heos : s.eosSent <;> cases hconn : s.connected <;>
    cases hneed : s.needSegment <;> cases hseg : s.segmentPushed <;>
    cases hcaps : s.capsPushed <;>
    simp_all [List.drop_left, List.drop_length, List.append_assoc]

theorem buffer_emitted_stamp (s : PacerState) (f p d : Nat)
    (h : SrcEv.buffer f p d ∈ emitted s) :
    p = s.baseTimestamp + s.nextTimestamp ∧ d = s.frameDuration := by
  unfold emitted output_thread_iter at h
  rcases hq : s.recvQueue with _ | ⟨g, rest⟩ <;>
    cases hstop : s.stopped <;> cases heos : s.eosSent <;> cases hconn : s.connected <;>
    cases hneed : s.needSegment <;> cases hseg : s.segmentPushed <;>
    cases hcaps : s.capsPushed <;>
    simp_all [List.drop_left, List.drop_length, List.append_assoc]

theorem iter_frameDuration (s : PacerState) :
    (output_thread_iter s).frameDuration = s.frameDuration := by
  unfold output_thread_iter
  rcases hq : s.recvQueue with _ | ⟨f, rest⟩ <;>
    cases hstop : s.stopped <;> cases heos : s.eosSent <;> cases hconn : s.connected <;>
    cases hneed : s.needSegment <;> cases hseg : s.segmentPushed <;>
    cases hcaps : s.capsPushed <;>
    simp_all

theorem iter_nextTimestamp (s : PacerState) :
    (output_thread_iter s).nextTimestamp = s.nextTimestamp ∨
      (output_thread_iter s).nextTimestamp = s.nextTimestamp + s.frameDuration := by
  unfold output_thread_iter
  rcases hq : s.recvQueue with _ | ⟨f, rest⟩ <;>
    cases hstop : s.stopped <;> cases heos : s.eosSent <;> cases hconn : s.connected <;>
    cases hneed : s.needSegment <;> cases hseg : s.segmentPushed <;>
    cases hcaps : s.capsPushed <;>
    simp_all

theorem iter_baseTimestamp (s : PacerState) :
    (output_thread_iter s).baseTimestamp = s.baseTimestamp := by
  unfold output_thread_iter
  rcases hq : s.recvQueue with _ | ⟨f, rest⟩ <;>
    cases hstop : s.stopped <;> cases heos : s.eosSent <;> cases hconn : s.connected <;>
    cases hneed : s.needSegment <;> cases hseg : s.segmentPushed <;>
    cases hcaps : s.capsPushed <;>
    simp_all

theorem eosBudget_iter_le (s : PacerState) :
    eosBudget (output_thread_iter s) ≤ eosBudget s := by
  unfold eosBudget output_thread_iter
  rcases hq : s.recvQueue with _ | ⟨f, rest⟩ <;>
    cases hstop : s.stopped <;> cases heos : s.eosSent <;> cases hconn : s.connected <;>
    cases hneed : s.needSegment <;> cases hseg : s.segmentPushed <;>
    cases hcaps : s.capsPushed <;>
    simp_all [List.count_append]

theorem eosBudget_run_le (n : Nat) : ∀ s : PacerState,
    eosBudget (output_thread_run n s) ≤ eosBudget s := by
  induction n with
  | zero => intro s; exact le_refl _
  | succ n ih =>
    intro s
    exact le_trans (ih (output_thread_iter s)) (eosBudget_iter_le s)

theorem run_frameDuration (n : Nat) : ∀ s : PacerState,
    (output_thread_run n s).frameDuration = s.frameDuration := by
  induction n with
  | zero => intro s; rfl
  | succ n ih =>
    intro s
    rw [output_thread_run, ih (output_thread_iter s), iter_frameDuration]

theorem run_nextTimestamp_grid (n : Nat) : ∀ s : PacerState,
    ∃ m, (output_thread_run n s).nextTimestamp =
      s.nextTimestamp + m * s.frameDuration := by
  induction n with
  | zero => intro s; exact ⟨0, by simp [output_thread_run]⟩
  | succ n ih =>
    intro s
    obtain ⟨m, hm⟩ := ih (output_thread_iter s)
    rw [iter_frameDuration] at hm
    rcases iter_nextTimestamp s with h | h
    · exact ⟨m, by rw [output_thread_run, hm, h]⟩
    · refine ⟨m + 1, ?_⟩
      rw [output_thread_run, hm, h]
      ring

/-- Draining a disconnected pacer: with the queue holding `l`, the next
`l.length + 1` iterations push exactly the queued frames in order, then a
single end-of-stream, and the loop exits. -/
theorem drain_run (l : List Nat) : ∀ s : PacerState,
    s.connected = false → s.eosSent = false → s.stopped = false →
    s.segmentPushed = true → s.needSegment = false → s.recvQueue = l →
    (output_thread_run (l.length + 1) s).events =
        s.events ++ drainEvents s.baseTimestamp s.nextTimestamp s.frameDuration l
          ++ [SrcEv.eos] ∧
      (output_thread_run (l.length + 1) s).eosSent = true ∧
      (output_thread_run (l.length + 1) s).stopped = true := by
  induction l with
  | nil =>
    intro s hconn heos hstop hseg hneed hq
    have h := iter_empty_eos_eq s hstop heos hq hneed hseg hconn
    simp [output_thread_run, h, drainEvents]
  | cons f rest ih =>
    intro s hconn heos hstop hseg hneed hq
    have h := iter_buffer_eq s f rest hstop heos hq hneed hseg
    have hrun : output_thread_run ((f :: rest).length + 1) s =
        output_thread_run (rest.length + 1) (output_thread_iter s) := by
      rfl
    rw [hrun, h]
    obtain ⟨e1, e2, e3⟩ :=
      ih ({ s with
            needSegment := false,
            recvQueue := rest,
            events := s.events ++
              [SrcEv.buffer f (s.baseTimestamp + s.nextTimestamp) s.frameDuration],
            nextTimestamp := s.nextTimestamp + s.frameDuration,
            nextOutputTime := s.nextOutputTime + s.frameDuration })
        hconn heos hstop hseg rfl rfl
    refine ⟨?_, e2, e3⟩
    rw [e1]
    simp [drainEvents, List.append_assoc]

/-! ## Claim theorems -/

/-- Claim C1: the receive-queue push of on_websocket_message keeps the
queue length at most max-queue-size — whenever an insertion would exceed
the capacity, head elements are popped until the length is below capacity
and only then is the new frame appended at the tail; in particular with
max-queue-size 3, pushing 5 frames with no intervening pop leaves exactly
the last 3 frames in arrival order. -/
theorem C1_queue_push_bounded (cap : Nat) (q : List Nat) (f : Nat)
    (hcap : 1 ≤ cap) :
    (queuePush cap q f).length ≤ cap ∧
      List.foldl (queuePush 3) ([] : List Nat) [1, 2, 3, 4, 5] = [3, 4, 5] := by
  constructor
  · have := dropOldest_length_lt cap hcap q
    simp only [queuePush, List.length_append, List.length_cons, List.length_nil]
    omega
  · decide

theorem C1_queue_push_bounded_witness :
    1 ≤ 3 ∧ ((queuePush 3 [10, 11, 12] 13).length ≤ 3 ∧
      List.foldl (queuePush 3) ([] : List Nat) [1, 2, 3, 4, 5] = [3, 4, 5]) :=
  ⟨by decide, C1_queue_push_bounded 3 [10, 11, 12] 13 (by decide)⟩

/-- Claim C2: the flush (barge-in) operation drains the receive queue,
resets next_timestamp to 0 and clears first_timestamp_set, pushes a
flush-start then a flush-stop event, and sets need_segment — and in
consequence the first audio unit pushed downstream after a barge-in is
preceded by flush-start, flush-stop and a segment event, in that order,
with pts restarting at base plus 0. -/
theorem C2_flush_and_resegment (s : PacerState) (f cap : Nat)
    (hstop : s.stopped = false) (heos : s.eosSent = false)
    (hcaps : s.capsPushed = true) :
    ((flush_queue s).recvQueue = [] ∧
     (flush_queue s).nextTimestamp = 0 ∧
     (flush_queue s).firstTimestampSet = false ∧
     (flush_queue s).needSegment = true ∧
     (flush_queue s).events = s.events ++ [SrcEv.flushStart, SrcEv.flushStop]) ∧
    (∀ t : PacerState, ∀ g rest, t.needSegment = true → t.capsPushed = true →
      t.eosSent = false → t.stopped = false → t.recvQueue = g :: rest →
      emitted t = [SrcEv.segment,
        SrcEv.buffer g (t.baseTimestamp + t.nextTimestamp) t.frameDuration]) ∧
    ((output_thread_iter
        { flush_queue s with
          recvQueue := queuePush cap (flush_queue s).recvQueue f }).events =
      s.events ++ [SrcEv.flushStart, SrcEv.flushStop, SrcEv.segment,
        SrcEv.buffer f s.baseTimestamp s.frameDuration]) := by
  refine ⟨?_, ?_, ?_⟩
  · simp [flush_queue, flushDrain, flushResetTs, flushPushEvents, flushMarkSegment]
  · intro t g rest h1 h2 h3 h4 h5
    have h := iter_seg_buffer_eq t g rest h4 h3 h5 h1 h2
    simp [emitted, h, List.drop_left]
  · simp [output_thread_iter, flush_queue, flushDrain, flushResetTs,
      flushPushEvents, flushMarkSegment, queuePush, dropOldest,
      hstop, heos, hcaps]

theorem C2_flush_and_resegment_witness :
    (pacerFlushState.stopped = false ∧ pacerFlushState.eosSent = false ∧
      pacerFlushState.capsPushed = true) ∧
    ((flush_queue pacerFlushState).events =
      pacerFlushState.events ++ [SrcEv.flushStart, SrcEv.flushStop]) ∧
    ((output_thread_iter
        { flush_queue pacerFlushState with
          recvQueue := queuePush 100 (flush_queue pacerFlushState).recvQueue 9 }).events =
      pacerFlushState.events ++ [SrcEv.flushStart, SrcEv.flushStop, SrcEv.segment,
        SrcEv.buffer 9 pacerFlushState.baseTimestamp pacerFlushState.frameDuration]) :=
  ⟨⟨rfl, rfl, rfl⟩,
    (C2_flush_and_resegment pacerFlushState 9 100 rfl rfl rfl).1.2.2.2.2,
    (C2_flush_and_resegment pacerFlushState 9 100 rfl rfl rfl).2.2⟩

/-- Claim C3: per activation the pacer emits end-of-stream at most once; an
iteration emits it only when the dequeue finds the queue empty while
connected is false and eos_sent is not yet set; after a disconnect the
queued frames are drained and pushed, in order, before the single
end-of-stream, and a stopped pacer performs no further pushes. -/
theorem C3_eos_once_and_drain (s : PacerState) (n : Nat) (l : List Nat)
    (hfresh : s.eosSent = false) (hcount : s.events.count SrcEv.eos = 0)
    (hconn : s.connected = false) (hstop : s.stopped = false)
    (hseg : s.segmentPushed = true) (hneed : s.needSegment = false)
    (hq : s.recvQueue = l) :
    (output_thread_run n s).events.count SrcEv.eos ≤ 1 ∧
    (∀ t : PacerState, SrcEv.eos ∈ emitted t →
      t.recvQueue = [] ∧ t.connected = false ∧ t.eosSent = false) ∧
    ((output_thread_run (l.length + 1) s).events =
        s.events ++ drainEvents s.baseTimestamp s.nextTimestamp s.frameDuration l
          ++ [SrcEv.eos] ∧
      (output_thread_run (l.length + 1) s).stopped = true) ∧
    (∀ t : PacerState, t.stopped = true → output_thread_iter t = t) := by
  refine ⟨?_, ?_, ?_, ?_⟩
  · have hb := eosBudget_run_le n s
    have h1 : eosBudget s = 1 := by simp [eosBudget, hfresh, hcount]
    have h2 : (output_thread_run n s).events.count SrcEv.eos ≤
        eosBudget (output_thread_run n s) := Nat.le_add_right _ _
    omega
  · intro t ht
    exact ⟨(eos_emitted_cond t ht).1, (eos_emitted_cond t ht).2.1,
      (eos_emitted_cond t ht).2.2.1⟩
  · obtain ⟨e1, e2, e3⟩ := drain_run l s hconn hfresh hstop hseg hneed hq
    exact ⟨e1, e3⟩
  · intro t ht
    exact iter_stopped_eq t ht

theorem C3_eos_once_and_drain_witness :
    (pacerDiscState.eosSent = false ∧
      pacerDiscState.events.count SrcEv.eos = 0 ∧
      pacerDiscState.connected = false ∧ pacerDiscState.stopped = false ∧
      pacerDiscState.segmentPushed = true ∧ pacerDiscState.needSegment = false ∧
      pacerDiscState.recvQueue = [5, 6]) ∧
    (output_thread_run 8 pacerDiscState).events.count SrcEv.eos ≤ 1 ∧
    ((output_thread_run 3 pacerDiscState).events =
        pacerDiscState.events ++
          drainEvents pacerDiscState.baseTimestamp pacerDiscState.nextTimestamp
            pacerDiscState.frameDuration [5, 6] ++ [SrcEv.eos] ∧
      (output_thread_run 3 pacerDiscState).stopped = true) :=
  ⟨⟨rfl, by decide, rfl, rfl, rfl, rfl, rfl⟩,
    (C3_eos_once_and_drain pacerDiscState 8 [5, 6] rfl (by decide) rfl rfl rfl
      rfl rfl).1,
    (C3_eos_once_and_drain pacerDiscState 3 [5, 6] rfl (by decide) rfl rfl rfl
      rfl rfl).2.2.1⟩

/-- Claim C4: every audio unit pushed by the pacer carries
pts = base_timestamp plus k times frame_duration with duration equal to
frame_duration, the multiplier k never decreases across iterations, and on
an iteration where the queue is empty and no EOS is sent both
next_timestamp and the output deadline still advance by exactly one
frame_duration. -/
theorem C4_pts_schedule (s : PacerState) (k fd : Nat)
    (hfd : s.frameDuration = fd) (hts : s.nextTimestamp = k * fd) :
    (∀ f p d, SrcEv.buffer f p d ∈ emitted s →
      p = s.baseTimestamp + k * fd ∧ d = fd) ∧
    (∀ n, ∃ j, k ≤ j ∧ (output_thread_run n s).nextTimestamp = j * fd) ∧
    (s.stopped = false → s.eosSent = false → s.connected = true →
      s.needSegment = false → s.segmentPushed = true → s.recvQueue = [] →
      (output_thread_iter s).nextTimestamp = (k + 1) * fd ∧
      (output_thread_iter s).nextOutputTime = s.nextOutputTime + fd) := by
  refine ⟨?_, ?_, ?_⟩
  · intro f p d h
    have hst := buffer_emitted_stamp s f p d h
    rw [hts, hfd] at hst
    exact hst
  · intro n
    obtain ⟨m, hm⟩ := run_nextTimestamp_grid n s
    refine ⟨k + m, Nat.le_add_right _ _, ?_⟩
    rw [hm, hts, hfd]
    ring
  · intro h1 h2 h3 h4 h5 h6
    have h := iter_empty_adv_eq s h1 h2 h6 h4 h5 h3
    rw [h]
    constructor
    · show s.nextTimestamp + s.frameDuration = (k + 1) * fd
      rw [hts, hfd]
      ring
    · show s.nextOutputTime + s.frameDuration = s.nextOutputTime + fd
      rw [hfd]

theorem C4_pts_schedule_witness :
    (pacerGapState.frameDuration = 20 ∧ pacerGapState.nextTimestamp = 2 * 20) ∧
    (∃ j, 2 ≤ j ∧ (output_thread_run 4 pacerGapState).nextTimestamp = j * 20) ∧
    ((output_thread_iter pacerGapState).nextTimestamp = (2 + 1) * 20 ∧
      (output_thread_iter pacerGapState).nextOutputTime =
        pacerGapState.nextOutputTime + 20) :=
  ⟨⟨rfl, rfl⟩,
    (C4_pts_schedule pacerGapState 2 20 rfl rfl).2.1 4,
    (C4_pts_schedule pacerGapState 2 20 rfl rfl).2.2 rfl rfl rfl rfl rfl rfl⟩

/-- Claim C5 (counterexample): the claim's backoff recurrence
current_backoff_ms := max(initial_reconnect_delay_ms,
min(current_backoff_ms times 2, max_backoff_ms)) differs from the code's
(lines 699-701) at the admissible configuration
initial-reconnect-delay-ms = 5000, max-backoff-ms = 1000: on the second
retried failure the code yields backoff 1000, the claimed recurrence 5000,
and the code's backoff falls below initial_reconnect_delay_ms. -/
theorem C5_backoff_counterexample :
    (100 ≤ 5000 ∧ 5000 ≤ 5000 ∧ 1000 ≤ 1000 ∧ 1000 ≤ 60000) ∧
    backoffSeq 5000 1000 2 = 1000 ∧
    backoffSeqSpec 5000 1000 2 = 5000 ∧
    backoffSeq 5000 1000 2 ≠ backoffSeqSpec 5000 1000 2 ∧
    backoffSeq 5000 1000 2 < 5000 := by decide

theorem backoffSeq_bounds (ini maxB : Nat) (hpos : 0 < ini) (hle : ini ≤ maxB) :
    ∀ m, ini ≤ backoffSeq ini maxB (m + 1) ∧ backoffSeq ini maxB (m + 1) ≤ maxB := by
  intro m
  induction m with
  | zero =>
    constructor <;> simp [backoffSeq, backoffStep, hle]
  | succ m ih =>
    obtain ⟨hlo, hhi⟩ := ih
    have hcur : 0 < backoffSeq ini maxB (m + 1) := lt_of_lt_of_le hpos hlo
    have hstep : backoffSeq ini maxB (m + 1 + 1) =
        min (backoffSeq ini maxB (m + 1) * 2) maxB := by
      rw [backoffSeq, backoffStep, if_pos hcur]
    constructor
    · rw [hstep]
      have hdouble : ini ≤ backoffSeq ini maxB (m + 1) * 2 := by omega
      exact le_min hdouble hle
    · rw [hstep]
      exact min_le_right _ _

/-- Claim C5 (amended): the code's backoff update is
current_backoff_ms := min(current_backoff_ms times 2, max_backoff_ms) when
current_backoff_ms is positive and initial_reconnect_delay_ms otherwise
(no outer max with the initial delay); with default parameters the
successive backoffs are 1000, 2000, 4000, 8000, 16000, 30000, 30000 ms;
and for every admissible configuration in which
initial_reconnect_delay_ms does not exceed max_backoff_ms, every backoff
from the first retry on lies between initial_reconnect_delay_ms and
max_backoff_ms. -/
theorem C5_backoff_amended (ini maxB n : Nat)
    (h1 : 100 ≤ ini) (h2 : ini ≤ 5000) (_h3 : 1000 ≤ maxB) (_h4 : maxB ≤ 60000)
    (h5 : ini ≤ maxB) (hn : 1 ≤ n) :
    ((List.range 7).map (fun i => backoffSeq 1000 30000 (i + 1)) =
        [1000, 2000, 4000, 8000, 16000, 30000, 30000]) ∧
    ini ≤ backoffSeq ini maxB n ∧ backoffSeq ini maxB n ≤ maxB := by
  obtain ⟨m, rfl⟩ : ∃ m, n = m + 1 := ⟨n - 1, by omega⟩
  exact ⟨by decide, backoffSeq_bounds ini maxB (by omega) h5 m⟩

theorem C5_backoff_amended_witness :
    (100 ≤ 1000 ∧ 1000 ≤ 5000 ∧ 1000 ≤ 30000 ∧ 30000 ≤ 60000 ∧
      1000 ≤ 30000 ∧ 1 ≤ 3) ∧
    (((List.range 7).map (fun i => backoffSeq 1000 30000 (i + 1)) =
        [1000, 2000, 4000, 8000, 16000, 30000, 30000]) ∧
      1000 ≤ backoffSeq 1000 30000 3 ∧ backoffSeq 1000 30000 3 ≤ 30000) :=
  ⟨by decide,
    C5_backoff_amended 1000 30000 3 (by decide) (by decide) (by decide)
      (by decide) (by decide) (by decide)⟩

/-- Claim C6: the NULL-to-READY transition fails exactly when uri is unset;
on failure no worker thread has been started; when uri is set the
transition resets the reconnect counters, starts the WebSocket worker and
succeeds, and the outcome is the same whether or not the connection was
established within the 5-second wait (a timeout is not fatal). -/
theorem C6_null_to_ready (s : ElemState) (b : Bool) :
    ((change_state_null_to_ready s b).1 = StateChangeRet.failure ↔ s.uri = none) ∧
    (s.uri = none →
      (change_state_null_to_ready s b).2.wsThreadStarted = s.wsThreadStarted ∧
      (change_state_null_to_ready s b).2.wsThreadRunning = s.wsThreadRunning) ∧
    (∀ u, s.uri = some u →
      (change_state_null_to_ready s b).1 = StateChangeRet.success ∧
      (change_state_null_to_ready s b).2.reconnectCount = 0 ∧
      (change_state_null_to_ready s b).2.currentBackoffMs = 0 ∧
      (change_state_null_to_ready s b).2.wsThreadRunning = true ∧
      (change_state_null_to_ready s b).2.wsThreadStarted = true) ∧
    change_state_null_to_ready s true = change_state_null_to_ready s false := by
  rcases huri : s.uri with _ | u <;>
    simp [change_state_null_to_ready, huri]

theorem C6_null_to_ready_witness :
    ((change_state_null_to_ready
        { uri := none, reconnectCount := 4, currentBackoffMs := 8000,
          wsThreadRunning := false, wsThreadStarted := false } true).1 =
      StateChangeRet.failure) ∧
    ((change_state_null_to_ready
        { uri := some "ws://localhost:9999", reconnectCount := 4,
          currentBackoffMs := 8000, wsThreadRunning := false,
          wsThreadStarted := false } false).1 = StateChangeRet.success) := by
  constructor
  · exact (C6_null_to_ready
      { uri := none, reconnectCount := 4, currentBackoffMs := 8000,
        wsThreadRunning := false, wsThreadStarted := false } true).1.mpr rfl
  · exact ((C6_null_to_ready
      { uri := some "ws://localhost:9999", reconnectCount := 4,
        currentBackoffMs := 8000, wsThreadRunning := false,
        wsThreadStarted := false } false).2.2.1 "ws://localhost:9999" rfl).1

/-- Claim C7: the sink-chain returns GST_FLOW_OK for every buffer, and
whenever connected is false or no connection handle exists the buffer is
dropped (nothing is handed to the transport); a transport problem is never
surfaced as a flow failure. -/
theorem C7_chain_benign (s : ChainState) (b : List Nat) :
    (chain s b).1 = FlowRet.ok ∧
      (s.connected = false ∨ s.wsConn = none → (chain s b).2 = none) := by
  rcases s with ⟨c, conn⟩
  constructor
  · cases c <;> cases conn <;> simp [chain]
  · rintro (h | h) <;> simp_all [chain]

theorem C7_chain_benign_witness :
    (chain { connected := false, wsConn := none } [1, 2, 3]).1 = FlowRet.ok ∧
      (chain { connected := false, wsConn := none } [1, 2, 3]).2 = none :=
  ⟨(C7_chain_benign { connected := false, wsConn := none } [1, 2, 3]).1,
    (C7_chain_benign { connected := false, wsConn := none } [1, 2, 3]).2
      (Or.inl rfl)⟩

/-- Claim C8: an end-of-stream event received on the sink pad is absorbed —
the handler unrefs it and returns TRUE, emitting nothing on the source
pad — and no sink event ever causes an end-of-stream on the source pad;
only the transport's own close triggers downstream EOS. -/
theorem C8_sink_eos_absorbed (r : Bool) :
    (sink_event r SinkEvKind.eosEv).1 = true ∧
    (sink_event r SinkEvKind.eosEv).2 = [] ∧
    (∀ ev, SrcEv.eos ∉ (sink_event r ev).2) := by
  refine ⟨rfl, rfl, ?_⟩
  intro ev
  cases ev <;> cases r <;> simp [sink_event]

theorem C8_sink_eos_absorbed_witness :
    (sink_event true SinkEvKind.eosEv).1 = true ∧
    (sink_event true SinkEvKind.eosEv).2 = [] ∧
    SrcEv.eos ∉ (sink_event true SinkEvKind.otherEv).2 :=
  ⟨(C8_sink_eos_absorbed true).1, (C8_sink_eos_absorbed true).2.1,
    (C8_sink_eos_absorbed true).2.2 SinkEvKind.otherEv⟩

/-- Claim C9 (evaluation at the failing input): the connect-loop condition
of ws_thread (line 652) requires reconnect_enabled, so with uri set,
ws_thread_running true and reconnect-enabled false (all other properties
default) the worker initiates zero handshake attempts, not the at least
one the claim derives; with reconnect-enabled true the same start state
yields handshake attempts. -/
theorem C9_no_attempt_when_reconnect_disabled :
    wsLoopCond wsDisabledInput = false ∧
    wsAttempts 100 wsDisabledInput = 0 ∧
    wsAttempts 100 wsEnabledInput = 10 := by decide

/-- Claim C10: in setcaps, raw-audio caps that cannot be parsed yield
bytes_per_sample 2; a format name that is none of audio/x-raw,
audio/x-mulaw, audio/x-alaw yields bytes_per_sample 1; and every
successful setcaps recomputes frame_size_bytes as
sample_rate times bytes_per_sample times channels times frame_duration_ms
divided by 1000 (integer division). -/
theorem C10_setcaps_bps_and_frame_size (c : AudioCfg) (caps : InCaps)
    (ok : Bool) (rate channels : Nat)
    (hr : caps.rate = some rate) (hc : caps.channels = some channels) :
    (caps.name = "audio/x-raw" → caps.rawBpf = none →
      (sink_setcaps c caps ok).2.bytes_per_sample = 2) ∧
    (caps.name ≠ "audio/x-raw" → caps.name ≠ "audio/x-mulaw" →
      caps.name ≠ "audio/x-alaw" →
      (sink_setcaps c caps ok).2.bytes_per_sample = 1) ∧
    ((sink_setcaps c caps ok).1 = true →
      (sink_setcaps c caps ok).2.frame_size_bytes =
        (sink_setcaps c caps ok).2.sample_rate *
          (sink_setcaps c caps ok).2.bytes_per_sample *
          (sink_setcaps c caps ok).2.channels *
          (sink_setcaps c caps ok).2.frame_duration_ms / 1000) := by
  refine ⟨?_, ?_, ?_⟩
  · intro hname hbpf
    cases ok <;> simp [sink_setcaps, hr, hc, hname, hbpf]
  · intro h1 h2 h3
    cases ok <;> simp [sink_setcaps, hr, hc, h1, h2, h3]
  · intro hok
    cases ok
    · simp [sink_setcaps, hr, hc] at hok
    · simp [sink_setcaps, hr, hc]

theorem C10_setcaps_witness :
    ({ name := "audio/x-raw", rate := some 16000, channels := some 1,
       rawBpf := none } : InCaps).rate = some 16000 ∧
    (sink_setcaps
        { sample_rate := 16000, channels := 1, bytes_per_sample := 0,
          frame_duration_ms := 250, frame_size_bytes := 0,
          frame_duration := 250000000, caps_ready := false }
        { name := "audio/x-raw", rate := some 16000, channels := some 1,
          rawBpf := none } true).2.bytes_per_sample = 2 := by
  constructor
  · rfl
  · exact (C10_setcaps_bps_and_frame_size
      { sample_rate := 16000, channels := 1, bytes_per_sample := 0,
        frame_duration_ms := 250, frame_size_bytes := 0,
        frame_duration := 250000000, caps_ready := false }
      { name := "audio/x-raw", rate := some 16000, channels := some 1,
        rawBpf := none } true 16000 1 rfl rfl).1 rfl rfl

end GstWsT
